import Mathlib

/-!
# Verification of the `great_expectations` excerpt

Shallow embedding of two source files:

* `great_expectations/datasource/pandas_datasource.py` — the
  `PandasDatasource` adapter (`process_batch_parameters`, `get_batch`,
  `guess_reader_method_from_path`, `_get_reader_fn`);
* `great_expectations/cli/checkpoint.py` — the checkpoint CLI command group
  (`new`, `list`, `run`, `script`).

Python dictionaries are modelled as insertion-ordered association lists with
first-occurrence lookup; Python exceptions become `Except`/outcome values.
External dependencies (pandas readers, boto3, the CLI toolkit module, the
filesystem) are modelled as explicit environment records, since the excerpt
delegates all real I/O to them.
-/

namespace GE

/-! ## Python dictionaries as association lists -/

/-- Lookup of a key in a Python-style dict (first matching entry). -/
def lookupKey {α : Type} : List (String × α) → String → Option α
  | [], _ => none
  | e :: rest, k => if e.1 = k then some e.2 else lookupKey rest k

/-- Python's `k in d` membership test. -/
def hasKey {α : Type} (d : List (String × α)) (k : String) : Bool :=
  (lookupKey d k).isSome

/-- Python's `d[k] = v`: replace the first entry with key `k`, else append. -/
def setKey {α : Type} : List (String × α) → String → α → List (String × α)
  | [], k, v => [(k, v)]
  | e :: rest, k, v => if e.1 = k then (k, v) :: rest else e :: setKey rest k v

/-- Python's `d.update(e)`: set every entry of `e` into `d`, in order. -/
def updateDict {α : Type} (d e : List (String × α)) : List (String × α) :=
  e.foldl (fun acc kv => setKey acc kv.1 kv.2) d

/-- A dict whose keys appear at most once (true of every real Python dict). -/
def keysNodup {α : Type} (d : List (String × α)) : Prop :=
  (d.map Prod.fst).Nodup

instance {α : Type} (d : List (String × α)) : Decidable (keysNodup d) := by
  unfold keysNodup
  infer_instance

/-- Python's `str.endswith`, modelled on the character list of the string. -/
def strEndsWith (s suffix : String) : Bool :=
  suffix.data.isSuffixOf s.data

/-! ## Python values

A pandas `DataFrame` or `Series` is opaque to the excerpt: the only
observation the excerpt makes is `df.memory_usage().sum()`.  `tag`
distinguishes frames that came from different places. -/

/-- An opaque pandas DataFrame / Series (external library object). -/
structure Frame where
  memoryUsageSum : Nat
  tag : Nat
deriving Repr, DecidableEq

/-- The Python values that flow through batch descriptors in the excerpt. -/
inductive PyVal where
  | str (s : String)
  | intVal (n : Int)
  | boolVal (b : Bool)
  | frame (f : Frame)
  | pyDict (d : List (String × PyVal))
  | pyNone
deriving Repr

/-- A Python dict with string keys and arbitrary values (`batch_kwargs`). -/
abbrev KwDict := List (String × PyVal)

/-! ## pandas_datasource.py : data model -/

/-- `HASH_THRESHOLD = 1e9` (pandas_datasource.py line 19); the memory-usage
sums compared against it are integers, so the float threshold is exactly
`10^9`. -/
def HASH_THRESHOLD : Nat := 1000000000

/-- Errors surfaced by the embedded datasource code: `BatchKwargsError`
(the exception class raised in the source) versus any other Python
exception (`TypeError`/`AttributeError` arising from ill-typed descriptor
values). The source attaches the offending kwargs to the exception as
well; only the message is needed to distinguish the raise sites. -/
inductive PandasError where
  | batchKwargsError (message : String)
  | otherError (message : String)
deriving Repr, DecidableEq

/-- Result of `guess_reader_method_from_path`: the source returns a dict
with a `"reader_method"` entry and, for `.csv.gz` only, a
`"reader_options"` entry. -/
structure GuessResult where
  reader_method : String
  reader_options : Option KwDict
deriving Repr

/-- `PandasDatasource.guess_reader_method_from_path` (lines 249-269). -/
def guess_reader_method_from_path (path : String) : Except PandasError GuessResult :=
  if strEndsWith path ".csv" || strEndsWith path ".tsv" then
    .ok { reader_method := "read_csv", reader_options := none }
  else if strEndsWith path ".parquet" then
    .ok { reader_method := "read_parquet", reader_options := none }
  else if strEndsWith path ".xlsx" || strEndsWith path ".xls" then
    .ok { reader_method := "read_excel", reader_options := none }
  else if strEndsWith path ".json" then
    .ok { reader_method := "read_json", reader_options := none }
  else if strEndsWith path ".pkl" then
    .ok { reader_method := "read_pickle", reader_options := none }
  else if strEndsWith path ".csv.gz" || strEndsWith path ".csv.gz" then
    .ok { reader_method := "read_csv",
          reader_options := some [("compression", PyVal.str "gzip")] }
  else
    .error (.batchKwargsError ("Unable to determine reader method from path: " ++ path))

/-- Environment capturing the external dependencies of `get_batch`:
pandas (`hasPandasAttr` is `getattr(pd, name)` succeeding, `readPath` /
`readS3` are the reader functions applied to their final keyword options),
boto3 availability, `S3Url` key extraction (datasource/util.py, outside
the excerpt), wall-clock load time, `uuid.uuid1()`, and
`hash_pandas_dataframe`. -/
structure PandasEnv where
  hasPandasAttr : String → Bool
  readPath : String → String → KwDict → Frame
  readS3 : String → String → KwDict → Frame
  boto3Available : Bool
  s3Key : String → String
  loadTime : String
  geBatchId : String
  hashFrame : Frame → String

/-- The per-instance state of a `PandasDatasource` set in `__init__`
(lines 137-140). -/
structure PandasDatasourceState where
  name : String
  boto3_options : KwDict
  reader_method : Option String
  reader_options : Option KwDict
  limit : Option Int

/-- The `Batch` value object returned by `get_batch`. -/
structure Batch where
  datasource_name : String
  batch_kwargs : KwDict
  data : Frame
  batch_parameters : Option PyVal
  batch_markers : List (String × String)

/-- `PandasDatasource._get_reader_fn` (lines 271-306). The returned pair is
the pandas reader name together with the keyword options bound by
`functools.partial` (the `.csv.gz` compression option); `getattr` failure
is the `AttributeError` branch. -/
def get_reader_fn (env : PandasEnv) (reader_method : Option String)
    (path : Option String) : Except PandasError (String × KwDict) :=
  match reader_method, path with
  | none, none =>
    .error (.batchKwargsError
      "Unable to determine pandas reader function without reader_method or path.")
  | some m, _ =>
    if env.hasPandasAttr m then .ok (m, [])
    else .error (.batchKwargsError ("Unable to find reader_method " ++ m ++ " in pandas."))
  | none, some p =>
    match guess_reader_method_from_path p with
    | .error e => .error e
    | .ok g =>
      if env.hasPandasAttr g.reader_method then
        .ok (g.reader_method, g.reader_options.getD [])
      else
        .error (.batchKwargsError
          ("Unable to find reader_method " ++ g.reader_method ++ " in pandas."))

/-- Coerce a descriptor value to a string; a non-string value makes the
source raise a non-`BatchKwargsError` exception when it is used. -/
def pyStr : PyVal → Except PandasError String
  | .str s => .ok s
  | _ => .error (.otherError "expected a string value")

/-- `batch_kwargs.get("reader_method")` as an optional string; a non-string
value would make `getattr(pd, ...)` raise `TypeError` in the source. -/
def optReaderMethod (kwargs : KwDict) : Except PandasError (Option String) :=
  match lookupKey kwargs "reader_method" with
  | none => .ok none
  | some (.str s) => .ok (some s)
  | some _ => .error (.otherError "reader_method is not a string")

/-- Coerce the `reader_options` descriptor value to a dict; a non-dict
value would make `**reader_options` raise `TypeError` in the source. -/
def asDict : PyVal → Except PandasError KwDict
  | .pyDict d => .ok d
  | _ => .error (.otherError "reader_options is not a mapping")

/-- The `"path" in batch_kwargs` branch of `get_batch` (lines 190-194):
resolve the reader function, then read the file with the
`partial`-bound options overridden by the descriptor's reader options. -/
def runPathStrategy (env : PandasEnv) (kwargs : KwDict) :
    Except PandasError (Frame × KwDict) :=
  match pyStr ((lookupKey kwargs "path").getD .pyNone) with
  | .error e => .error e
  | .ok path =>
    match optReaderMethod kwargs with
    | .error e => .error e
    | .ok rm =>
      match get_reader_fn env rm (some path) with
      | .error e => .error e
      | .ok fn =>
        match asDict ((lookupKey kwargs "reader_options").getD (.pyDict [])) with
        | .error e => .error e
        | .ok ro => .ok (env.readPath fn.1 path (updateDict fn.2 ro), kwargs)

/-- The `"s3" in batch_kwargs` branch of `get_batch` (lines 196-220):
require boto3, fetch the object, resolve the reader from the S3 key, read. -/
def runS3Strategy (env : PandasEnv) (kwargs : KwDict) :
    Except PandasError (Frame × KwDict) :=
  if env.boto3Available then
    match pyStr ((lookupKey kwargs "s3").getD .pyNone) with
    | .error e => .error e
    | .ok rawUrl =>
      match optReaderMethod kwargs with
      | .error e => .error e
      | .ok rm =>
        match get_reader_fn env rm (some (env.s3Key rawUrl)) with
        | .error e => .error e
        | .ok fn =>
          match asDict ((lookupKey kwargs "reader_options").getD (.pyDict [])) with
          | .error e => .error e
          | .ok ro => .ok (env.readS3 fn.1 rawUrl (updateDict fn.2 ro), kwargs)
  else
    .error (.batchKwargsError "Unable to load boto3 client to read s3 asset.")

/-- The `"dataset" in batch_kwargs` branch of `get_batch` (lines 222-229):
use the in-memory frame, drop it from the kwargs, and record the
in-memory provenance markers. Only reached when the value is a frame. -/
def runDatasetStrategy (env : PandasEnv) (kwargs : KwDict) :
    Except PandasError (Frame × KwDict) :=
  match lookupKey kwargs "dataset" with
  | some (.frame f) =>
    let kw1 := kwargs.filter (fun e => e.1 != "dataset")
    let kw2 := setKey kw1 "PandasInMemoryDF" (.boolVal true)
    let kw3 := setKey kw2 "ge_batch_id" (.str env.geBatchId)
    .ok (f, kw3)
  | _ => .error (.otherError "dataset is not a pandas DataFrame or Series")

/-- True when the `"dataset"` descriptor entry exists and is a frame, the
guard of the third `elif` in `get_batch` (lines 222-224). -/
def isFrameVal : Option PyVal → Bool
  | some (.frame _) => true
  | _ => false

/-- The message of the `BatchKwargsError` raised by the final `else` of
`get_batch` (lines 231-235). -/
def invalidBatchKwargsMessage : String :=
  "Invalid batch_kwargs: path, s3, or df is required for a PandasDatasource"

/-- The `if "path" / elif "s3" / elif "dataset" / else raise` dispatch of
`get_batch` (lines 190-235). -/
def dispatchStrategy (env : PandasEnv) (batch_kwargs : KwDict) :
    Except PandasError (Frame × KwDict) :=
  if hasKey batch_kwargs "path" then runPathStrategy env batch_kwargs
  else if hasKey batch_kwargs "s3" then runS3Strategy env batch_kwargs
  else if isFrameVal (lookupKey batch_kwargs "dataset") then
    runDatasetStrategy env batch_kwargs
  else .error (.batchKwargsError invalidBatchKwargsMessage)

/-- The common tail of `get_batch` (lines 185-188 and 237-247): build the
`ge_load_time` marker, attach the fingerprint marker when the frame's
memory usage is below `HASH_THRESHOLD`, wrap everything in a `Batch`. -/
def finishBatch (env : PandasEnv) (ds : PandasDatasourceState)
    (batch_parameters : Option PyVal) (r : Except PandasError (Frame × KwDict)) :
    Except PandasError Batch :=
  match r with
  | .error e => .error e
  | .ok fk =>
    let markers0 : List (String × String) := [("ge_load_time", env.loadTime)]
    let markers :=
      if fk.1.memoryUsageSum < HASH_THRESHOLD then
        markers0 ++ [("pandas_data_fingerprint", env.hashFrame fk.1)]
      else markers0
    .ok { datasource_name := ds.name, batch_kwargs := fk.2, data := fk.1,
          batch_parameters := batch_parameters, batch_markers := markers }

/-- `PandasDatasource.get_batch` (lines 181-247): dispatch on the
descriptor's shape, then finish with the fingerprint marker and the
`Batch` wrapper. -/
def get_batch (env : PandasEnv) (ds : PandasDatasourceState) (batch_kwargs : KwDict)
    (batch_parameters : Option PyVal) : Except PandasError Batch :=
  finishBatch env ds batch_parameters (dispatchStrategy env batch_kwargs)

/-- Modelled from the spec: `Datasource.process_batch_parameters` (the base
class in datasource.py, not part of the excerpt). Per the excerpt's call
site it receives only `dataset_options` and returns a fresh
batch-parameters dict carrying the passthrough when present. -/
def datasource_process_batch_parameters (dataset_options : Option PyVal) : KwDict :=
  match dataset_options with
  | some v => [("dataset_options", v)]
  | none => []

/-- Python truthiness of an optional dict (`None` and `{}` are falsy). -/
def truthyDict : Option KwDict → Bool
  | some d => !d.isEmpty
  | none => false

/-- Python truthiness of an optional integer (`None` and `0` are falsy). -/
def truthyInt : Option Int → Bool
  | some n => n != 0
  | none => false

/-- Python truthiness of an optional string (`None` and `""` are falsy). -/
def truthyStr : Option String → Bool
  | some s => s != ""
  | none => false

/-- The `if not batch_kwargs.get("reader_options"): ... = dict()` pattern:
the current reader-options dict of the accumulating batch kwargs, a fresh
empty dict when missing or falsy. -/
def currentReaderOptions (bk : KwDict) : KwDict :=
  match lookupKey bk "reader_options" with
  | some (.pyDict d) => if d.isEmpty then [] else d
  | _ => []

/-- `if self._reader_options: ... batch_kwargs["reader_options"].update(self._reader_options)`
(lines 150-155). -/
def applyGlobalReaderOptions (ds : PandasDatasourceState) (bk : KwDict) : KwDict :=
  if truthyDict ds.reader_options then
    setKey bk "reader_options"
      (.pyDict (updateDict (currentReaderOptions bk) (ds.reader_options.getD [])))
  else bk

/-- `if reader_options: ... batch_kwargs["reader_options"].update(reader_options)`
(lines 157-161). -/
def applyCallReaderOptions (reader_options : Option KwDict) (bk : KwDict) : KwDict :=
  if truthyDict reader_options then
    setKey bk "reader_options"
      (.pyDict (updateDict (currentReaderOptions bk) (reader_options.getD [])))
  else bk

/-- `if self._limit: ... batch_kwargs["reader_options"]["nrows"] = self._limit`
(lines 163-166). -/
def applyGlobalLimit (ds : PandasDatasourceState) (bk : KwDict) : KwDict :=
  if truthyInt ds.limit then
    setKey bk "reader_options"
      (.pyDict (setKey (currentReaderOptions bk) "nrows" (.intVal (ds.limit.getD 0))))
  else bk

/-- `if limit is not None: ... batch_kwargs["reader_options"]["nrows"] = limit`
(lines 168-171). -/
def applyCallLimit (limit : Option Int) (bk : KwDict) : KwDict :=
  if limit.isSome then
    setKey bk "reader_options"
      (.pyDict (setKey (currentReaderOptions bk) "nrows" (.intVal (limit.getD 0))))
  else bk

/-- `if self._reader_method: batch_kwargs["reader_method"] = self._reader_method`
(lines 173-174). -/
def applyGlobalReaderMethod (ds : PandasDatasourceState) (bk : KwDict) : KwDict :=
  if truthyStr ds.reader_method then
    setKey bk "reader_method" (.str (ds.reader_method.getD ""))
  else bk

/-- `if reader_method is not None: batch_kwargs["reader_method"] = reader_method`
(lines 176-177). -/
def applyCallReaderMethod (reader_method : Option String) (bk : KwDict) : KwDict :=
  if reader_method.isSome then
    setKey bk "reader_method" (.str (reader_method.getD ""))
  else bk

/-- `PandasDatasource.process_batch_parameters` (lines 142-179): start from
the base-class result, fold in datasource-level reader options, then
call-site reader options, then the datasource-level limit as `nrows`,
then the call-site limit, then the two reader-method assignments, in
source order. -/
def process_batch_parameters (ds : PandasDatasourceState) (reader_method : Option String)
    (reader_options : Option KwDict) (limit : Option Int)
    (dataset_options : Option PyVal) : KwDict :=
  applyCallReaderMethod reader_method
    (applyGlobalReaderMethod ds
      (applyCallLimit limit
        (applyGlobalLimit ds
          (applyCallReaderOptions reader_options
            (applyGlobalReaderOptions ds
              (datasource_process_batch_parameters dataset_options))))))

/-! ## Lemmas about the dict model -/

/-- Option fallback: the first value when present, else the second. -/
def optOr {α : Type} (a b : Option α) : Option α :=
  match a with
  | some x => some x
  | none => b

theorem lookupKey_setKey_self {α : Type} (d : List (String × α)) (k : String) (v : α) :
    lookupKey (setKey d k v) k = some v := by
  induction d with
  | nil => simp [setKey, lookupKey]
  | cons e rest ih =>
    by_cases h : e.1 = k
    · simp [setKey, h, lookupKey]
    · simp [setKey, h, lookupKey, ih]

theorem lookupKey_setKey_other {α : Type} (d : List (String × α)) (k k' : String) (v : α)
    (h : k' ≠ k) : lookupKey (setKey d k v) k' = lookupKey d k' := by
  have hkk : ¬ k = k' := fun hh => h hh.symm
  induction d with
  | nil => simp [setKey, lookupKey, hkk]
  | cons e rest ih =>
    by_cases he : e.1 = k
    · have hek : ¬ e.1 = k' := by
        rw [he]
        exact hkk
      simp [setKey, he, lookupKey, hek, hkk]
    · by_cases he2 : e.1 = k'
      · simp [setKey, he, lookupKey, he2, hkk, h]
      · simp [setKey, he, lookupKey, he2, ih]

theorem lookupKey_eq_none_of_not_mem {α : Type} (d : List (String × α)) (k : String)
    (h : k ∉ d.map Prod.fst) : lookupKey d k = none := by
  induction d with
  | nil => simp [lookupKey]
  | cons e rest ih =>
    simp only [List.map_cons, List.mem_cons] at h
    push_neg at h
    have h1 : ¬ e.1 = k := fun hh => h.1 hh.symm
    simp [lookupKey, h1, ih h.2]

theorem updateDict_cons {α : Type} (d : List (String × α)) (a : String × α)
    (e : List (String × α)) :
    updateDict d (a :: e) = updateDict (setKey d a.1 a.2) e := rfl

theorem lookupKey_updateDict {α : Type} (e : List (String × α)) (h : keysNodup e) :
    ∀ (d : List (String × α)) (k : String),
      lookupKey (updateDict d e) k = optOr (lookupKey e k) (lookupKey d k) := by
  induction e with
  | nil =>
    intro d k
    simp [updateDict, lookupKey, optOr]
  | cons a rest ih =>
    intro d k
    have h' := h
    rw [keysNodup, List.map_cons, List.nodup_cons] at h'
    obtain ⟨hn, hrest⟩ := h'
    rw [updateDict_cons, ih hrest]
    by_cases hk : k = a.1
    · rw [hk, lookupKey_eq_none_of_not_mem rest a.1 hn, lookupKey_setKey_self]
      simp [lookupKey, optOr]
    · rw [lookupKey_setKey_other d a.1 k a.2 hk]
      have han : ¬ a.1 = k := fun hh => hk hh.symm
      simp [lookupKey, han, optOr]

theorem lookupKey_filterKey {α : Type} (d : List (String × α)) (s k : String) :
    lookupKey (d.filter (fun e => e.1 != s)) k =
      if k = s then none else lookupKey d k := by
  induction d with
  | nil => simp [lookupKey]
  | cons e rest ih =>
    by_cases he : e.1 = s
    · have hb : (e.1 != s) = false := by simp [he]
      rw [List.filter_cons, hb]
      simp only [Bool.false_eq_true, if_false]
      rw [ih]
      by_cases hk : k = s
      · simp [hk]
      · have hek : ¬ e.1 = k := by
          rw [he]
          exact fun hh => hk hh.symm
        simp [hk, lookupKey, hek]
    · have hb : (e.1 != s) = true := by simp [he]
      rw [List.filter_cons, hb]
      simp only [if_true]
      by_cases hk : e.1 = k
      · have hks : ¬ k = s := by
          rw [← hk]
          exact he
        simp [lookupKey, hk, hks]
      · simp [lookupKey, hk, ih]

/-! ## C2: the extension-to-reader table -/

/-- Spec-side (claim C2 wording): the fixed suffix table — `.csv`/`.tsv`
map to `read_csv`, `.parquet` to `read_parquet`, `.xlsx`/`.xls` to
`read_excel`, `.json` to `read_json`, `.pkl` to `read_pickle`, and
`.csv.gz` to `read_csv` with gzip compression as a reader option. -/
def readerSuffixTable : List (String × GuessResult) :=
  [ (".csv", { reader_method := "read_csv", reader_options := none }),
    (".tsv", { reader_method := "read_csv", reader_options := none }),
    (".parquet", { reader_method := "read_parquet", reader_options := none }),
    (".xlsx", { reader_method := "read_excel", reader_options := none }),
    (".xls", { reader_method := "read_excel", reader_options := none }),
    (".json", { reader_method := "read_json", reader_options := none }),
    (".pkl", { reader_method := "read_pickle", reader_options := none }),
    (".csv.gz", { reader_method := "read_csv",
                  reader_options := some [("compression", PyVal.str "gzip")] }) ]

/-- Spec-side: the reader determined solely by the path's suffix via the
fixed table, `none` when no suffix of the table matches. -/
def readerTableSpec (path : String) : Option GuessResult :=
  (readerSuffixTable.find? (fun e => strEndsWith path e.1)).map Prod.snd

/-- C2: for every path string, `guess_reader_method_from_path` returns
exactly the reader given by the fixed suffix table (`.csv`/`.tsv` ↦
`read_csv`, `.parquet` ↦ `read_parquet`, `.xlsx`/`.xls` ↦ `read_excel`,
`.json` ↦ `read_json`, `.pkl` ↦ `read_pickle`, `.csv.gz` ↦ `read_csv`
with gzip compression), and raises `BatchKwargsError` for every path
matching none of these suffixes. -/
theorem guess_reader_method_matches_table (path : String) :
    guess_reader_method_from_path path =
      match readerTableSpec path with
      | some r => .ok r
      | none => .error (.batchKwargsError
          ("Unable to determine reader method from path: " ++ path)) := by
  unfold guess_reader_method_from_path readerTableSpec readerSuffixTable
  by_cases h1 : strEndsWith path ".csv" = true
  · simp [h1, List.find?]
  by_cases h2 : strEndsWith path ".tsv" = true
  · simp [h1, h2, List.find?]
  by_cases h3 : strEndsWith path ".parquet" = true
  · simp [h1, h2, h3, List.find?]
  by_cases h4 : strEndsWith path ".xlsx" = true
  · simp [h1, h2, h3, h4, List.find?]
  by_cases h5 : strEndsWith path ".xls" = true
  · simp [h1, h2, h3, h4, h5, List.find?]
  by_cases h6 : strEndsWith path ".json" = true
  · simp [h1, h2, h3, h4, h5, h6, List.find?]
  by_cases h7 : strEndsWith path ".pkl" = true
  · simp [h1, h2, h3, h4, h5, h6, h7, List.find?]
  by_cases h8 : strEndsWith path ".csv.gz" = true
  · simp [h1, h2, h3, h4, h5, h6, h7, h8, List.find?]
  · simp [h1, h2, h3, h4, h5, h6, h7, h8, List.find?]

/-! ## C3: the reader-options merge in process_batch_parameters -/

theorem optOr_none_right {α : Type} (a : Option α) : optOr a none = a := by
  cases a <;> rfl

theorem getD_eq_nil_of_not_truthyDict (o : Option KwDict) (h : truthyDict o = false) :
    o.getD [] = [] := by
  cases o with
  | none => rfl
  | some d =>
    simp [truthyDict] at h
    simp [h]

theorem currentReaderOptions_setKey_method (bk : KwDict) (v : PyVal) :
    currentReaderOptions (setKey bk "reader_method" v) = currentReaderOptions bk := by
  unfold currentReaderOptions
  rw [lookupKey_setKey_other bk "reader_method" "reader_options" v (by decide)]

theorem lookupKey_currentReaderOptions_setKey (bk : KwDict) (X : KwDict) (k : String) :
    lookupKey (currentReaderOptions (setKey bk "reader_options" (PyVal.pyDict X))) k =
      lookupKey X k := by
  unfold currentReaderOptions
  rw [lookupKey_setKey_self]
  by_cases hX : X.isEmpty
  · rw [List.isEmpty_iff] at hX
    subst hX
    simp
  · simp [hX]

theorem currentReaderOptions_base (o : Option PyVal) :
    currentReaderOptions (datasource_process_batch_parameters o) = [] := by
  cases o <;> rfl

theorem lookupKey_base_reader_method (o : Option PyVal) :
    lookupKey (datasource_process_batch_parameters o) "reader_method" = none := by
  cases o <;> rfl

theorem lookupKey_setKey_options_method (bk : KwDict) (v : PyVal) :
    lookupKey (setKey bk "reader_options" v) "reader_method" = lookupKey bk "reader_method" :=
  lookupKey_setKey_other bk "reader_options" "reader_method" v (by decide)

theorem lookup_CRO_applyGlobalReaderOptions (ds : PandasDatasourceState) (bk : KwDict)
    (h0 : currentReaderOptions bk = []) (hds : keysNodup (ds.reader_options.getD []))
    (k : String) :
    lookupKey (currentReaderOptions (applyGlobalReaderOptions ds bk)) k =
      lookupKey (ds.reader_options.getD []) k := by
  unfold applyGlobalReaderOptions
  by_cases hg : truthyDict ds.reader_options
  · rw [if_pos hg, lookupKey_currentReaderOptions_setKey,
        lookupKey_updateDict _ hds, h0]
    simp [lookupKey, optOr_none_right]
  · rw [if_neg hg, h0, getD_eq_nil_of_not_truthyDict ds.reader_options (by simpa using hg)]

theorem lookup_CRO_applyCallReaderOptions (ro : Option KwDict) (bk : KwDict)
    (hro : keysNodup (ro.getD [])) (k : String) :
    lookupKey (currentReaderOptions (applyCallReaderOptions ro bk)) k =
      optOr (lookupKey (ro.getD []) k) (lookupKey (currentReaderOptions bk) k) := by
  unfold applyCallReaderOptions
  by_cases hl : truthyDict ro
  · rw [if_pos hl, lookupKey_currentReaderOptions_setKey, lookupKey_updateDict _ hro]
  · rw [if_neg hl, getD_eq_nil_of_not_truthyDict ro (by simpa using hl)]
    simp [lookupKey, optOr]

theorem lookup_CRO_applyGlobalLimit (ds : PandasDatasourceState) (bk : KwDict) (k : String) :
    lookupKey (currentReaderOptions (applyGlobalLimit ds bk)) k =
      if truthyInt ds.limit then
        (if k = "nrows" then some (PyVal.intVal (ds.limit.getD 0))
         else lookupKey (currentReaderOptions bk) k)
      else lookupKey (currentReaderOptions bk) k := by
  unfold applyGlobalLimit
  by_cases hdl : truthyInt ds.limit
  · rw [if_pos hdl, if_pos hdl, lookupKey_currentReaderOptions_setKey]
    by_cases hk : k = "nrows"
    · rw [if_pos hk, hk, lookupKey_setKey_self]
    · rw [if_neg hk, lookupKey_setKey_other _ _ _ _ hk]
  · rw [if_neg hdl, if_neg hdl]

theorem lookup_CRO_applyCallLimit (lim : Option Int) (bk : KwDict) (k : String) :
    lookupKey (currentReaderOptions (applyCallLimit lim bk)) k =
      if lim.isSome then
        (if k = "nrows" then some (PyVal.intVal (lim.getD 0))
         else lookupKey (currentReaderOptions bk) k)
      else lookupKey (currentReaderOptions bk) k := by
  unfold applyCallLimit
  by_cases hml : lim.isSome
  · rw [if_pos hml, if_pos hml, lookupKey_currentReaderOptions_setKey]
    by_cases hk : k = "nrows"
    · rw [if_pos hk, hk, lookupKey_setKey_self]
    · rw [if_neg hk, lookupKey_setKey_other _ _ _ _ hk]
  · rw [if_neg hml, if_neg hml]

theorem CRO_applyGlobalReaderMethod (ds : PandasDatasourceState) (bk : KwDict) :
    currentReaderOptions (applyGlobalReaderMethod ds bk) = currentReaderOptions bk := by
  unfold applyGlobalReaderMethod
  by_cases h : truthyStr ds.reader_method
  · rw [if_pos h, currentReaderOptions_setKey_method]
  · rw [if_neg h]

theorem CRO_applyCallReaderMethod (rm : Option String) (bk : KwDict) :
    currentReaderOptions (applyCallReaderMethod rm bk) = currentReaderOptions bk := by
  unfold applyCallReaderMethod
  by_cases h : rm.isSome
  · rw [if_pos h, currentReaderOptions_setKey_method]
  · rw [if_neg h]

theorem lookup_method_applyCallReaderMethod (rm : Option String) (bk : KwDict) :
    lookupKey (applyCallReaderMethod rm bk) "reader_method" =
      if rm.isSome then some (PyVal.str (rm.getD "")) else lookupKey bk "reader_method" := by
  unfold applyCallReaderMethod
  by_cases h : rm.isSome
  · rw [if_pos h, if_pos h, lookupKey_setKey_self]
  · rw [if_neg h, if_neg h]

theorem lookup_method_applyGlobalReaderMethod (ds : PandasDatasourceState) (bk : KwDict) :
    lookupKey (applyGlobalReaderMethod ds bk) "reader_method" =
      if truthyStr ds.reader_method then some (PyVal.str (ds.reader_method.getD ""))
      else lookupKey bk "reader_method" := by
  unfold applyGlobalReaderMethod
  by_cases h : truthyStr ds.reader_method
  · rw [if_pos h, if_pos h, lookupKey_setKey_self]
  · rw [if_neg h, if_neg h]

theorem lookup_method_applyCallLimit (lim : Option Int) (bk : KwDict) :
    lookupKey (applyCallLimit lim bk) "reader_method" = lookupKey bk "reader_method" := by
  unfold applyCallLimit
  by_cases h : lim.isSome
  · rw [if_pos h, lookupKey_setKey_options_method]
  · rw [if_neg h]

theorem lookup_method_applyGlobalLimit (ds : PandasDatasourceState) (bk : KwDict) :
    lookupKey (applyGlobalLimit ds bk) "reader_method" = lookupKey bk "reader_method" := by
  unfold applyGlobalLimit
  by_cases h : truthyInt ds.limit
  · rw [if_pos h, lookupKey_setKey_options_method]
  · rw [if_neg h]

theorem lookup_method_applyCallReaderOptions (ro : Option KwDict) (bk : KwDict) :
    lookupKey (applyCallReaderOptions ro bk) "reader_method" = lookupKey bk "reader_method" := by
  unfold applyCallReaderOptions
  by_cases h : truthyDict ro
  · rw [if_pos h, lookupKey_setKey_options_method]
  · rw [if_neg h]

theorem lookup_method_applyGlobalReaderOptions (ds : PandasDatasourceState) (bk : KwDict) :
    lookupKey (applyGlobalReaderOptions ds bk) "reader_method" = lookupKey bk "reader_method" := by
  unfold applyGlobalReaderOptions
  by_cases h : truthyDict ds.reader_options
  · rw [if_pos h, lookupKey_setKey_options_method]
  · rw [if_neg h]

/-- The merged reader options of `process_batch_parameters`, characterized
key by key: a call-site `limit` wins for `"nrows"`, then a (truthy)
datasource-level limit, then the call-site reader options, then the
datasource-level reader options. -/
theorem lookup_final_reader_options (ds : PandasDatasourceState) (rm : Option String)
    (ro : Option KwDict) (lim : Option Int) (dsopts : Option PyVal) (k : String)
    (hro : keysNodup (ro.getD [])) (hds : keysNodup (ds.reader_options.getD [])) :
    lookupKey (currentReaderOptions (process_batch_parameters ds rm ro lim dsopts)) k =
      if lim.isSome then
        (if k = "nrows" then some (PyVal.intVal (lim.getD 0))
         else optOr (lookupKey (ro.getD []) k) (lookupKey (ds.reader_options.getD []) k))
      else if truthyInt ds.limit then
        (if k = "nrows" then some (PyVal.intVal (ds.limit.getD 0))
         else optOr (lookupKey (ro.getD []) k) (lookupKey (ds.reader_options.getD []) k))
      else optOr (lookupKey (ro.getD []) k) (lookupKey (ds.reader_options.getD []) k) := by
  unfold process_batch_parameters
  rw [CRO_applyCallReaderMethod, CRO_applyGlobalReaderMethod, lookup_CRO_applyCallLimit,
      lookup_CRO_applyGlobalLimit, lookup_CRO_applyCallReaderOptions _ _ hro,
      lookup_CRO_applyGlobalReaderOptions ds _ (currentReaderOptions_base dsopts) hds]
  by_cases hml : lim.isSome <;> by_cases hdl : truthyInt ds.limit <;>
    by_cases hk : k = "nrows" <;> simp [hml, hdl, hk]

/-- The final `reader_method` of `process_batch_parameters`: the call-site
value when given, else the (truthy) datasource-level value, else absent. -/
theorem lookup_final_reader_method (ds : PandasDatasourceState) (rm : Option String)
    (ro : Option KwDict) (lim : Option Int) (dsopts : Option PyVal) :
    lookupKey (process_batch_parameters ds rm ro lim dsopts) "reader_method" =
      if rm.isSome then some (PyVal.str (rm.getD ""))
      else if truthyStr ds.reader_method then some (PyVal.str (ds.reader_method.getD ""))
      else none := by
  unfold process_batch_parameters
  rw [lookup_method_applyCallReaderMethod, lookup_method_applyGlobalReaderMethod,
      lookup_method_applyCallLimit, lookup_method_applyGlobalLimit,
      lookup_method_applyCallReaderOptions, lookup_method_applyGlobalReaderOptions,
      lookupKey_base_reader_method]

/-- A concrete datasource state used to evaluate the theorems on inputs. -/
def testDS : PandasDatasourceState :=
  { name := "pandas",
    boto3_options := [],
    reader_method := some "read_csv",
    reader_options := some [("sep", PyVal.str ";"), ("encoding", PyVal.str "utf8")],
    limit := some 7 }

/-- C3: in `process_batch_parameters` the merge of read options is
last-write-wins with call-site values overriding datasource-level
defaults: datasource-configured reader_options are applied first and then
updated key-by-key with the reader_options passed to the call (so for
every ordinary key the call-site value wins and otherwise the datasource
value survives); a datasource-level limit sets `reader_options["nrows"]`
and a limit passed to the call overwrites it; and a reader_method passed
to the call overwrites the datasource-level reader_method. -/
theorem process_batch_parameters_last_write_wins (ds : PandasDatasourceState)
    (rm : Option String) (ro : Option KwDict) (lim : Option Int) (dsopts : Option PyVal)
    (hro : keysNodup (ro.getD [])) (hds : keysNodup (ds.reader_options.getD [])) :
    (∀ k, k ≠ "nrows" →
      lookupKey (currentReaderOptions (process_batch_parameters ds rm ro lim dsopts)) k =
        optOr (lookupKey (ro.getD []) k) (lookupKey (ds.reader_options.getD []) k)) ∧
    (∀ n : Int, lim = some n →
      lookupKey (currentReaderOptions (process_batch_parameters ds rm ro lim dsopts)) "nrows" =
        some (PyVal.intVal n)) ∧
    (∀ m : Int, lim = none → ds.limit = some m → m ≠ 0 →
      lookupKey (currentReaderOptions (process_batch_parameters ds rm ro lim dsopts)) "nrows" =
        some (PyVal.intVal m)) ∧
    (∀ r : String, rm = some r →
      lookupKey (process_batch_parameters ds rm ro lim dsopts) "reader_method" =
        some (PyVal.str r)) ∧
    (∀ r : String, rm = none → ds.reader_method = some r → r ≠ "" →
      lookupKey (process_batch_parameters ds rm ro lim dsopts) "reader_method" =
        some (PyVal.str r)) := by
  refine ⟨?_, ?_, ?_, ?_, ?_⟩
  · intro k hk
    rw [lookup_final_reader_options ds rm ro lim dsopts k hro hds]
    simp [hk]
  · intro n h
    subst h
    rw [lookup_final_reader_options ds rm ro (some n) dsopts "nrows" hro hds]
    simp
  · intro m h hd hm
    subst h
    rw [lookup_final_reader_options ds rm ro none dsopts "nrows" hro hds]
    simp [truthyInt, hd, hm]
  · intro r h
    subst h
    rw [lookup_final_reader_method]
    simp
  · intro r h hd hr
    subst h
    rw [lookup_final_reader_method]
    simp [truthyStr, hd, hr]

/-- Witness for C3 at a concrete input: a call-site separator overrides
the datasource one, the call-site limit 3 beats the datasource limit 7,
and the call-site reader_method beats the configured one. -/
theorem process_batch_parameters_last_write_wins_witness :
    lookupKey (currentReaderOptions (process_batch_parameters testDS (some "read_table")
        (some [("sep", PyVal.str ",")]) (some 3) none)) "sep" = some (PyVal.str ",") ∧
    lookupKey (currentReaderOptions (process_batch_parameters testDS (some "read_table")
        (some [("sep", PyVal.str ",")]) (some 3) none)) "nrows" = some (PyVal.intVal 3) ∧
    lookupKey (process_batch_parameters testDS (some "read_table")
        (some [("sep", PyVal.str ",")]) (some 3) none) "reader_method" =
      some (PyVal.str "read_table") := by
  have h := process_batch_parameters_last_write_wins testDS (some "read_table")
    (some [("sep", PyVal.str ",")]) (some 3) none (by decide) (by decide)
  exact ⟨(h.1 "sep" (by decide)).trans rfl, h.2.1 3 rfl, h.2.2.2.1 "read_table" rfl⟩

/-! ## C4: the fingerprint threshold -/

/-- A small concrete frame for evaluating the theorems. -/
def testFrame : Frame := { memoryUsageSum := 10, tag := 0 }

/-- A concrete environment used to evaluate the theorems on inputs. -/
def testPandasEnv : PandasEnv :=
  { hasPandasAttr := fun m =>
      ["read_csv", "read_parquet", "read_excel", "read_json", "read_pickle"].contains m,
    readPath := fun _ _ _ => { memoryUsageSum := 10, tag := 1 },
    readS3 := fun _ _ _ => { memoryUsageSum := 10, tag := 2 },
    boto3Available := true,
    s3Key := fun u => u,
    loadTime := "t0",
    geBatchId := "fresh-id",
    hashFrame := fun _ => "h" }

/-- C4: for every successful call to `get_batch`, the returned batch's
markers contain a `"pandas_data_fingerprint"` entry if and only if the
memory usage of the loaded dataframe is strictly below `HASH_THRESHOLD`
(`1e9` bytes). -/
theorem get_batch_fingerprint_iff (env : PandasEnv) (ds : PandasDatasourceState)
    (kwargs : KwDict) (bp : Option PyVal) (b : Batch)
    (h : get_batch env ds kwargs bp = .ok b) :
    (lookupKey b.batch_markers "pandas_data_fingerprint").isSome ↔
      b.data.memoryUsageSum < HASH_THRESHOLD := by
  unfold get_batch finishBatch at h
  cases hr : dispatchStrategy env kwargs with
  | error e =>
    rw [hr] at h
    exact Except.noConfusion h
  | ok fk =>
    rw [hr] at h
    simp only [Except.ok.injEq] at h
    subst h
    by_cases hm : fk.1.memoryUsageSum < HASH_THRESHOLD
    · simp [hm, lookupKey]
    · simp [hm, lookupKey]

/-- Witness for C4: an in-memory frame of 10 bytes gets a fingerprint. -/
theorem get_batch_fingerprint_iff_witness :
    (lookupKey [("ge_load_time", "t0"), ("pandas_data_fingerprint", "h")]
        "pandas_data_fingerprint").isSome ↔
      (10 : Nat) < HASH_THRESHOLD := by
  exact get_batch_fingerprint_iff testPandasEnv testDS
    [("dataset", PyVal.frame testFrame)] none
    { datasource_name := "pandas",
      batch_kwargs := [("PandasInMemoryDF", PyVal.boolVal true),
                       ("ge_batch_id", PyVal.str "fresh-id")],
      data := testFrame,
      batch_parameters := none,
      batch_markers := [("ge_load_time", "t0"), ("pandas_data_fingerprint", "h")] }
    rfl

/-! ## C1: strategy dispatch in get_batch -/

/-- The three loading strategies named by the spec. -/
inductive Strategy where
  | pathStrategy
  | s3Strategy
  | datasetStrategy
deriving Repr, DecidableEq

/-- Spec-side (claim C1 wording): the strategy a descriptor selects — a
local-file read when it contains a `"path"` key, otherwise an
object-storage read when it contains an `"s3"` key, otherwise the
in-memory frame when it contains a `"dataset"` key holding a DataFrame
or Series, otherwise none. -/
def selectedStrategySpec (kwargs : KwDict) : Option Strategy :=
  if hasKey kwargs "path" then some .pathStrategy
  else if hasKey kwargs "s3" then some .s3Strategy
  else if isFrameVal (lookupKey kwargs "dataset") then some .datasetStrategy
  else none

theorem head_data_append (a b : String) (c : Char) (ha : a.data.head? = some c) :
    (a ++ b).data.head? = some c := by
  rw [String.data_append]
  cases hd : a.data with
  | nil =>
    rw [hd] at ha
    exact Option.noConfusion ha
  | cons x xs =>
    rw [hd] at ha
    simp only [List.head?] at ha
    rw [List.cons_append]
    simp only [List.head?]
    exact ha

theorem ne_invalid_of_head_U (s : String) (h : s.data.head? = some 'U') :
    s ≠ invalidBatchKwargsMessage := by
  intro hEq
  rw [hEq] at h
  exact absurd h (by decide)

theorem bke_ne_invalid_of_head_U (msg : String) (h : msg.data.head? = some 'U') :
    PandasError.batchKwargsError msg ≠ .batchKwargsError invalidBatchKwargsMessage := by
  intro hEq
  exact absurd (PandasError.batchKwargsError.inj hEq) (ne_invalid_of_head_U msg h)

theorem pyStr_error_shape (v : PyVal) (e : PandasError) (h : pyStr v = .error e) :
    ∃ m, e = .otherError m := by
  cases v <;> simp [pyStr] at h <;> exact ⟨_, h.symm⟩

theorem optReaderMethod_error_shape (kwargs : KwDict) (e : PandasError)
    (h : optReaderMethod kwargs = .error e) : ∃ m, e = .otherError m := by
  unfold optReaderMethod at h
  split at h
  · exact Except.noConfusion h
  · exact Except.noConfusion h
  · simp only [Except.error.injEq] at h
    exact ⟨_, h.symm⟩

theorem asDict_error_shape (v : PyVal) (e : PandasError) (h : asDict v = .error e) :
    ∃ m, e = .otherError m := by
  cases v <;> simp [asDict] at h <;> exact ⟨_, h.symm⟩

theorem guess_error_shape (p : String) (e : PandasError)
    (h : guess_reader_method_from_path p = .error e) :
    e = .batchKwargsError ("Unable to determine reader method from path: " ++ p) := by
  unfold guess_reader_method_from_path at h
  repeat' split at h
  all_goals first
    | exact Except.noConfusion h
    | (simp only [Except.error.injEq] at h; exact h.symm)

theorem get_reader_fn_error_ne_invalid (env : PandasEnv) (rm p : Option String)
    (e : PandasError) (h : get_reader_fn env rm p = .error e) :
    e ≠ .batchKwargsError invalidBatchKwargsMessage := by
  cases rm with
  | some m =>
    simp only [get_reader_fn] at h
    split at h
    · exact Except.noConfusion h
    · simp only [Except.error.injEq] at h
      rw [← h]
      exact bke_ne_invalid_of_head_U _ (head_data_append _ _ _ (head_data_append _ _ _ (by decide)))
  | none =>
    cases p with
    | none =>
      simp only [get_reader_fn, Except.error.injEq] at h
      rw [← h]
      exact bke_ne_invalid_of_head_U _ (by decide)
    | some q =>
      simp only [get_reader_fn] at h
      split at h
      · rename_i e1 heq
        simp only [Except.error.injEq] at h
        rw [← h, guess_error_shape q e1 heq]
        exact bke_ne_invalid_of_head_U _ (head_data_append _ _ _ (by decide))
      · split at h
        · exact Except.noConfusion h
        · simp only [Except.error.injEq] at h
          rw [← h]
          exact bke_ne_invalid_of_head_U _
            (head_data_append _ _ _ (head_data_append _ _ _ (by decide)))

theorem runPathStrategy_error_ne_invalid (env : PandasEnv) (kwargs : KwDict)
    (e : PandasError) (h : runPathStrategy env kwargs = .error e) :
    e ≠ .batchKwargsError invalidBatchKwargsMessage := by
  unfold runPathStrategy at h
  split at h
  · rename_i e1 heq
    simp only [Except.error.injEq] at h
    obtain ⟨m, hm⟩ := pyStr_error_shape _ _ heq
    rw [← h, hm]
    intro hEq
    exact PandasError.noConfusion hEq
  · split at h
    · rename_i e1 heq
      simp only [Except.error.injEq] at h
      obtain ⟨m, hm⟩ := optReaderMethod_error_shape _ _ heq
      rw [← h, hm]
      intro hEq
      exact PandasError.noConfusion hEq
    · split at h
      · rename_i e1 heq
        simp only [Except.error.injEq] at h
        rw [← h]
        exact get_reader_fn_error_ne_invalid env _ _ e1 heq
      · split at h
        · rename_i e1 heq
          simp only [Except.error.injEq] at h
          obtain ⟨m, hm⟩ := asDict_error_shape _ _ heq
          rw [← h, hm]
          intro hEq
          exact PandasError.noConfusion hEq
        · exact Except.noConfusion h

theorem runS3Strategy_error_ne_invalid (env : PandasEnv) (kwargs : KwDict)
    (e : PandasError) (h : runS3Strategy env kwargs = .error e) :
    e ≠ .batchKwargsError invalidBatchKwargsMessage := by
  unfold runS3Strategy at h
  split at h
  · split at h
    · rename_i e1 heq
      simp only [Except.error.injEq] at h
      obtain ⟨m, hm⟩ := pyStr_error_shape _ _ heq
      rw [← h, hm]
      intro hEq
      exact PandasError.noConfusion hEq
    · split at h
      · rename_i e1 heq
        simp only [Except.error.injEq] at h
        obtain ⟨m, hm⟩ := optReaderMethod_error_shape _ _ heq
        rw [← h, hm]
        intro hEq
        exact PandasError.noConfusion hEq
      · split at h
        · rename_i e1 heq
          simp only [Except.error.injEq] at h
          rw [← h]
          exact get_reader_fn_error_ne_invalid env _ _ e1 heq
        · split at h
          · rename_i e1 heq
            simp only [Except.error.injEq] at h
            obtain ⟨m, hm⟩ := asDict_error_shape _ _ heq
            rw [← h, hm]
            intro hEq
            exact PandasError.noConfusion hEq
          · exact Except.noConfusion h
  · simp only [Except.error.injEq] at h
    rw [← h]
    exact bke_ne_invalid_of_head_U _ (by decide)

theorem runDatasetStrategy_error_ne_invalid (env : PandasEnv) (kwargs : KwDict)
    (e : PandasError) (h : runDatasetStrategy env kwargs = .error e) :
    e ≠ .batchKwargsError invalidBatchKwargsMessage := by
  unfold runDatasetStrategy at h
  split at h
  · exact Except.noConfusion h
  · simp only [Except.error.injEq] at h
    rw [← h]
    intro hEq
    exact PandasError.noConfusion hEq

theorem finishBatch_runPath_ne_invalid (env : PandasEnv) (ds : PandasDatasourceState)
    (bp : Option PyVal) (kwargs : KwDict) :
    finishBatch env ds bp (runPathStrategy env kwargs) ≠
      .error (.batchKwargsError invalidBatchKwargsMessage) := by
  cases hr : runPathStrategy env kwargs with
  | error e =>
    simp only [finishBatch, ne_eq, Except.error.injEq]
    exact runPathStrategy_error_ne_invalid env kwargs e hr
  | ok fk => simp [finishBatch]

theorem finishBatch_runS3_ne_invalid (env : PandasEnv) (ds : PandasDatasourceState)
    (bp : Option PyVal) (kwargs : KwDict) :
    finishBatch env ds bp (runS3Strategy env kwargs) ≠
      .error (.batchKwargsError invalidBatchKwargsMessage) := by
  cases hr : runS3Strategy env kwargs with
  | error e =>
    simp only [finishBatch, ne_eq, Except.error.injEq]
    exact runS3Strategy_error_ne_invalid env kwargs e hr
  | ok fk => simp [finishBatch]

theorem finishBatch_runDataset_ne_invalid (env : PandasEnv) (ds : PandasDatasourceState)
    (bp : Option PyVal) (kwargs : KwDict) :
    finishBatch env ds bp (runDatasetStrategy env kwargs) ≠
      .error (.batchKwargsError invalidBatchKwargsMessage) := by
  cases hr : runDatasetStrategy env kwargs with
  | error e =>
    simp only [finishBatch, ne_eq, Except.error.injEq]
    exact runDatasetStrategy_error_ne_invalid env kwargs e hr
  | ok fk => simp [finishBatch]

/-- C1 (amended): `get_batch` selects at most one of the three loading
strategies, trying `path` first, then `s3`, then an in-memory `dataset`
frame; the dispatch-level `BatchKwargsError` ("Invalid batch_kwargs: ...")
is raised if and only if none of the three cases applies. (The original
claim's "raises BatchKwargsError iff none of the three cases applies"
fails: the path and s3 branches can themselves raise `BatchKwargsError`
while resolving the reader, see the counterexample.) -/
theorem get_batch_dispatch (env : PandasEnv) (ds : PandasDatasourceState)
    (kwargs : KwDict) (bp : Option PyVal) :
    (get_batch env ds kwargs bp = .error (.batchKwargsError invalidBatchKwargsMessage) ↔
      selectedStrategySpec kwargs = none) ∧
    (selectedStrategySpec kwargs = some .pathStrategy →
      get_batch env ds kwargs bp = finishBatch env ds bp (runPathStrategy env kwargs)) ∧
    (selectedStrategySpec kwargs = some .s3Strategy →
      get_batch env ds kwargs bp = finishBatch env ds bp (runS3Strategy env kwargs)) ∧
    (selectedStrategySpec kwargs = some .datasetStrategy →
      get_batch env ds kwargs bp = finishBatch env ds bp (runDatasetStrategy env kwargs)) := by
  refine ⟨⟨fun hcontra => ?_, fun hnone => ?_⟩, fun hpath => ?_, fun hs3 => ?_, fun hds => ?_⟩
  · unfold get_batch dispatchStrategy at hcontra
    unfold selectedStrategySpec
    by_cases hp : hasKey kwargs "path"
    · rw [if_pos hp] at hcontra
      exact absurd hcontra (finishBatch_runPath_ne_invalid env ds bp kwargs)
    · rw [if_neg hp] at hcontra
      by_cases hs : hasKey kwargs "s3"
      · rw [if_pos hs] at hcontra
        exact absurd hcontra (finishBatch_runS3_ne_invalid env ds bp kwargs)
      · rw [if_neg hs] at hcontra
        by_cases hd : isFrameVal (lookupKey kwargs "dataset")
        · rw [if_pos hd] at hcontra
          exact absurd hcontra (finishBatch_runDataset_ne_invalid env ds bp kwargs)
        · simp [hp, hs, hd]
  · unfold selectedStrategySpec at hnone
    unfold get_batch dispatchStrategy
    by_cases hp : hasKey kwargs "path"
    · simp [hp] at hnone
    · by_cases hs : hasKey kwargs "s3"
      · simp [hp, hs] at hnone
      · by_cases hd : isFrameVal (lookupKey kwargs "dataset")
        · simp [hp, hs, hd] at hnone
        · simp [hp, hs, hd, finishBatch]
  · unfold selectedStrategySpec at hpath
    by_cases hp : hasKey kwargs "path"
    · simp [get_batch, dispatchStrategy, hp]
    · by_cases hs : hasKey kwargs "s3" <;>
        by_cases hd : isFrameVal (lookupKey kwargs "dataset") <;>
        simp [hp, hs, hd] at hpath
  · unfold selectedStrategySpec at hs3
    by_cases hp : hasKey kwargs "path"
    · simp [hp] at hs3
    · by_cases hs : hasKey kwargs "s3"
      · simp [get_batch, dispatchStrategy, hp, hs]
      · by_cases hd : isFrameVal (lookupKey kwargs "dataset") <;>
          simp [hp, hs, hd] at hs3
  · unfold selectedStrategySpec at hds
    by_cases hp : hasKey kwargs "path"
    · simp [hp] at hds
    · by_cases hs : hasKey kwargs "s3"
      · simp [hp, hs] at hds
      · by_cases hd : isFrameVal (lookupKey kwargs "dataset")
        · simp [get_batch, dispatchStrategy, hp, hs, hd]
        · simp [hp, hs, hd] at hds

/-- Counterexample to C1 as stated: the descriptor contains a `"path"`
key (so the local-file case applies), yet `get_batch` raises
`BatchKwargsError` — from reader inference on the unrecognized `.txt`
suffix — refuting "raises BatchKwargsError only if none of the three
cases applies". -/
theorem get_batch_dispatch_counterexample :
    hasKey [("path", PyVal.str "data.txt")] "path" = true ∧
    get_batch testPandasEnv testDS [("path", PyVal.str "data.txt")] none =
      .error (.batchKwargsError "Unable to determine reader method from path: data.txt") :=
  ⟨rfl, rfl⟩

/-- Witness for the amended C1: a dataset-only descriptor selects the
in-memory strategy. -/
theorem get_batch_dispatch_witness :
    get_batch testPandasEnv testDS [("dataset", PyVal.frame testFrame)] none =
      finishBatch testPandasEnv testDS none
        (runDatasetStrategy testPandasEnv [("dataset", PyVal.frame testFrame)]) :=
  (get_batch_dispatch testPandasEnv testDS [("dataset", PyVal.frame testFrame)] none).2.2.2 rfl

/-! ## C9: the in-memory dataset branch and the returned batch_kwargs -/

theorem runDatasetStrategy_eq (env : PandasEnv) (kwargs : KwDict) (f : Frame)
    (hf : lookupKey kwargs "dataset" = some (.frame f)) :
    runDatasetStrategy env kwargs =
      .ok (f, setKey (setKey (kwargs.filter (fun e => e.1 != "dataset"))
        "PandasInMemoryDF" (.boolVal true)) "ge_batch_id" (.str env.geBatchId)) := by
  unfold runDatasetStrategy
  rw [hf]

/-- C9 (amended): when `get_batch` is given an in-memory frame via the
`"dataset"` key (and neither `"path"` nor `"s3"` is present), the
returned batch's kwargs do not contain `"dataset"`, every other key of
the original descriptor except the marker keys `"PandasInMemoryDF"` and
`"ge_batch_id"` is preserved unchanged, `"PandasInMemoryDF"` is set to
`True` and `"ge_batch_id"` is set to the freshly generated id. (The
original claim's "every other key is preserved unchanged" fails when the
descriptor already carries a `"ge_batch_id"` or `"PandasInMemoryDF"`
entry: those are overwritten, see the counterexample.) -/
theorem get_batch_dataset_kwargs (env : PandasEnv) (ds : PandasDatasourceState)
    (kwargs : KwDict) (f : Frame) (bp : Option PyVal)
    (hf : lookupKey kwargs "dataset" = some (.frame f))
    (hp : hasKey kwargs "path" = false) (hs : hasKey kwargs "s3" = false) :
    ∃ b, get_batch env ds kwargs bp = .ok b ∧
      lookupKey b.batch_kwargs "dataset" = none ∧
      (∀ k, k ≠ "dataset" → k ≠ "PandasInMemoryDF" → k ≠ "ge_batch_id" →
        lookupKey b.batch_kwargs k = lookupKey kwargs k) ∧
      lookupKey b.batch_kwargs "PandasInMemoryDF" = some (.boolVal true) ∧
      lookupKey b.batch_kwargs "ge_batch_id" = some (.str env.geBatchId) := by
  have hd : isFrameVal (lookupKey kwargs "dataset") = true := by
    rw [hf]
    rfl
  have hget : get_batch env ds kwargs bp =
      finishBatch env ds bp (runDatasetStrategy env kwargs) := by
    unfold get_batch dispatchStrategy
    simp [hp, hs, hd]
  rw [runDatasetStrategy_eq env kwargs f hf] at hget
  refine ⟨_, hget, ?_, ?_, ?_, ?_⟩
  · rw [lookupKey_setKey_other _ _ _ _ (by decide),
        lookupKey_setKey_other _ _ _ _ (by decide), lookupKey_filterKey]
    simp
  · intro k h1 h2 h3
    rw [lookupKey_setKey_other _ _ _ _ h3, lookupKey_setKey_other _ _ _ _ h2,
        lookupKey_filterKey]
    simp [h1]
  · rw [lookupKey_setKey_other _ _ _ _ (by decide), lookupKey_setKey_self]
  · rw [lookupKey_setKey_self]

/-- Counterexample to C9 as stated: a descriptor that already carries a
`"ge_batch_id"` entry does not get it preserved — the dataset branch
overwrites it with the freshly generated id. -/
theorem get_batch_dataset_counterexample :
    lookupKey [("dataset", PyVal.frame testFrame), ("ge_batch_id", PyVal.str "old")]
      "ge_batch_id" = some (PyVal.str "old") ∧
    ∃ b, get_batch testPandasEnv testDS
        [("dataset", PyVal.frame testFrame), ("ge_batch_id", PyVal.str "old")] none = .ok b ∧
      lookupKey b.batch_kwargs "ge_batch_id" = some (PyVal.str "fresh-id") ∧
      PyVal.str "fresh-id" ≠ PyVal.str "old" := by
  refine ⟨rfl, _, rfl, rfl, ?_⟩
  intro hEq
  exact absurd (PyVal.str.inj hEq) (by decide)

/-- Witness for the amended C9 at a concrete descriptor carrying one
extra key. -/
theorem get_batch_dataset_kwargs_witness :
    ∃ b, get_batch testPandasEnv testDS
        [("dataset", PyVal.frame testFrame), ("other", PyVal.intVal 1)] none = .ok b ∧
      lookupKey b.batch_kwargs "dataset" = none ∧
      (∀ k, k ≠ "dataset" → k ≠ "PandasInMemoryDF" → k ≠ "ge_batch_id" →
        lookupKey b.batch_kwargs k =
          lookupKey [("dataset", PyVal.frame testFrame), ("other", PyVal.intVal 1)] k) ∧
      lookupKey b.batch_kwargs "PandasInMemoryDF" = some (.boolVal true) ∧
      lookupKey b.batch_kwargs "ge_batch_id" = some (.str testPandasEnv.geBatchId) :=
  get_batch_dataset_kwargs testPandasEnv testDS
    [("dataset", PyVal.frame testFrame), ("other", PyVal.intVal 1)] testFrame none
    rfl rfl rfl

/-! ## cli/checkpoint.py : data model

The CLI commands delegate to the `toolkit` module and the `DataContext`,
neither of which is part of the excerpt; both are modelled as an
environment record. `toolkit.exit_with_failure_message_and_stats` is
modelled from the spec: it prints the message and terminates the process
with exit code 1 ("formatted as a user message, and terminate the process
with a non-zero exit code"; "exit code 0 on success, 1 on failure"). -/

/-- The exception classes distinguished by the `run` command's handlers:
`FileNotFoundError`, `SQLAlchemyError`, `IOError`, `DataContextError`,
and any other exception. -/
inductive CliExc where
  | fileNotFound
  | sqlAlchemyError
  | ioError
  | dataContextError
  | otherExc
deriving Repr, DecidableEq

/-- Membership in the `except (FileNotFoundError, SQLAlchemyError, IOError,
DataContextError)` tuple of `checkpoint_run` (line 171). -/
def caughtDuringLoad : CliExc → Bool
  | .fileNotFound => true
  | .sqlAlchemyError => true
  | .ioError => true
  | .dataContextError => true
  | .otherExc => false

/-- How a CLI command terminates: a `sys.exit` (or normal return, exit 0)
versus an uncaught Python exception propagating out. -/
inductive CliOutcome where
  | exited (code : Nat)
  | raised (e : CliExc)
deriving Repr, DecidableEq

/-- The result dict of `run_validation_operator`; the command reads only
`results["success"]`. -/
structure ValidationResult where
  success : Bool
deriving Repr, DecidableEq

/-- An `ExpectationSuite` loaded by name (opaque to the command). -/
structure Suite where
  suite_name : String
deriving Repr, DecidableEq

/-- One entry of the checkpoint's `batches` list: a batch descriptor plus
the suite names listed for it. -/
structure CheckpointBatchEntry where
  batch_kwargs : KwDict
  expectation_suite_names : List String

/-- A loaded checkpoint configuration: the validation-operator name and
the batches. -/
structure CheckpointConfig where
  validation_operator_name : String
  batches : List CheckpointBatchEntry

/-- Environment for the checkpoint commands. `loadCheckpoint` and
`loadSuite` are `toolkit.load_checkpoint` / `toolkit.load_expectation_suite`
(modelled from the spec: on a missing checkpoint or suite they print and
exit nonzero, here `none`); `load_batch` is `toolkit.load_batch`, whose
result is an opaque validated-batch handle or a raised exception;
`run_validation_operator` is `context.run_validation_operator`;
`selectDatasource` is `toolkit.select_datasource`; `isFile` is
`os.path.isfile`. -/
structure CliEnv where
  listCheckpoints : List String
  loadCheckpoint : String → Option CheckpointConfig
  loadSuite : String → Option Suite
  load_batch : Suite → KwDict → Except CliExc Nat
  run_validation_operator : String → List Nat → Except CliExc ValidationResult
  selectDatasource : Option String
  getBatchKwargs : KwDict
  rootDirectory : String
  checkpointsDir : String
  uncommittedDir : String
  isFile : String → Bool

/-- `os.path.join` for the paths the commands build. -/
def pathJoin (a b : String) : String := a ++ "/" ++ b

/-- The inner `for suite_name in batch["expectation_suite_names"]` loop of
`checkpoint_run` (lines 167-180): load each suite, then the batch;
a load error of one of the four caught classes exits 1, any other
exception propagates. Returns the grown `batches_to_validate` and the
log of `toolkit.load_batch` calls made. -/
def processSuites (env : CliEnv) (bkw : KwDict) (names : List String) (acc : List Nat)
    (loads : List (String × KwDict)) :
    Except (CliOutcome × List (String × KwDict)) (List Nat × List (String × KwDict)) :=
  match names with
  | [] => .ok (acc, loads)
  | n :: rest =>
    match env.loadSuite n with
    | none => .error (.exited 1, loads)
    | some suite =>
      match env.load_batch suite bkw with
      | .error e =>
        .error (if caughtDuringLoad e then .exited 1 else .raised e, loads ++ [(n, bkw)])
      | .ok h => processSuites env bkw rest (acc ++ [h]) (loads ++ [(n, bkw)])

/-- The outer `for batch in checkpoint_config["batches"]` loop of
`checkpoint_run` (lines 163-180): validate that the entry lists at least
one suite, then process its suites. -/
def processEntries (env : CliEnv) (entries : List CheckpointBatchEntry) (acc : List Nat)
    (loads : List (String × KwDict)) :
    Except (CliOutcome × List (String × KwDict)) (List Nat × List (String × KwDict)) :=
  match entries with
  | [] => .ok (acc, loads)
  | e :: rest =>
    if e.expectation_suite_names.isEmpty then .error (.exited 1, loads)
    else
      match processSuites env e.batch_kwargs e.expectation_suite_names acc loads with
      | .error r => .error r
      | .ok al => processEntries env rest al.1 al.2

/-- Observable effects of a `checkpoint run`: the `toolkit.load_batch`
calls made (suite name paired with the batch descriptor) and the
`run_validation_operator` calls made (operator name paired with the
assets passed). -/
structure RunTrace where
  loadCalls : List (String × KwDict)
  operatorCalls : List (String × List Nat)

/-- `checkpoint_run` (lines 145-200): load the checkpoint, loop over
batches and suites collecting `batches_to_validate`, run the validation
operator once over all of them (catching `DataContextError`), and exit 0
on success / 1 on failure. -/
def checkpoint_run (env : CliEnv) (checkpoint : String) : CliOutcome × RunTrace :=
  match env.loadCheckpoint checkpoint with
  | none => (.exited 1, { loadCalls := [], operatorCalls := [] })
  | some cfg =>
    match processEntries env cfg.batches [] [] with
    | .error r => (r.1, { loadCalls := r.2, operatorCalls := [] })
    | .ok al =>
      (match env.run_validation_operator cfg.validation_operator_name al.1 with
       | .error .dataContextError => .exited 1
       | .error e => .raised e
       | .ok r => if r.success then .exited 0 else .exited 1,
       { loadCalls := al.2, operatorCalls := [(cfg.validation_operator_name, al.1)] })

/-- `checkpoint_new` (lines 43-80 with `_verify_checkpoint_does_not_exist`,
lines 83-91): reject an existing checkpoint name before anything is
written, then load the suite, select a datasource, and write the
checkpoint file built from the template. The second component is the
list of files written (the template contents are opaque to the claims). -/
def checkpoint_new (env : CliEnv) (checkpoint : String) (suite : String) :
    CliOutcome × List String :=
  if env.listCheckpoints.contains checkpoint then (.exited 1, [])
  else
    match env.loadSuite suite with
    | none => (.exited 1, [])
    | some _ =>
      match env.selectDatasource with
      | none => (.exited 1, [])
      | some _ =>
        (.exited 0,
         [pathJoin (pathJoin env.rootDirectory env.checkpointsDir) (checkpoint ++ ".yml")])

/-- `checkpoint_list` (lines 116-142): with no checkpoints print the
"No checkpoints found." guidance and `sys.exit(0)`; otherwise print the
found list and return normally (exit 0). The second component is the
message printed. -/
def checkpoint_list (env : CliEnv) : CliOutcome × String :=
  if env.listCheckpoints.isEmpty then
    (.exited 0, "No checkpoints found.")
  else
    (.exited 0, "Found " ++ toString env.listCheckpoints.length ++ " checkpoint" ++
      (if env.listCheckpoints.length > 1 then "s" else "") ++ ".")

/-- `checkpoint_script` (lines 203-245 with
`_write_checkpoint_script_to_disk`, lines 269-276): load the checkpoint,
refuse to overwrite an existing `run_<name>.py`, else write it. The
second component is the list of files written. -/
def checkpoint_script (env : CliEnv) (checkpoint : String) : CliOutcome × List String :=
  match env.loadCheckpoint checkpoint with
  | none => (.exited 1, [])
  | some _ =>
    let script_path :=
      pathJoin (pathJoin env.rootDirectory env.uncommittedDir) ("run_" ++ checkpoint ++ ".py")
    if env.isFile script_path then (.exited 1, [])
    else (.exited 0, [script_path])

/-- Spec-side: the (suite name, batch descriptor) pairs a checkpoint
demands — one per pair of a batch entry and a suite name listed for it. -/
def expectedLoadCalls (cfg : CheckpointConfig) : List (String × KwDict) :=
  cfg.batches.flatMap (fun e => e.expectation_suite_names.map (fun n => (n, e.batch_kwargs)))

/-- Spec-side: the batches collected for validation, given the batch each
(suite, descriptor) pair loads to. -/
def expectedAssets (cfg : CheckpointConfig) (bf : String → KwDict → Nat) : List Nat :=
  cfg.batches.flatMap (fun e => e.expectation_suite_names.map (fun n => bf n e.batch_kwargs))

/-! ## CLI lemmas: the success path of checkpoint run -/

theorem processSuites_all_ok (env : CliEnv) (bkw : KwDict) (sf : String → Suite)
    (bf : String → KwDict → Nat) :
    ∀ (names : List String),
      (∀ n ∈ names, env.loadSuite n = some (sf n)) →
      (∀ n ∈ names, env.load_batch (sf n) bkw = .ok (bf n bkw)) →
      ∀ acc loads, processSuites env bkw names acc loads =
        .ok (acc ++ names.map (fun n => bf n bkw),
             loads ++ names.map (fun n => (n, bkw))) := by
  intro names
  induction names with
  | nil =>
    intro _ _ acc loads
    simp [processSuites]
  | cons n rest ih =>
    intro hs hb acc loads
    simp only [processSuites, hs n (List.mem_cons_self n rest),
      hb n (List.mem_cons_self n rest)]
    rw [ih (fun m hm => hs m (List.mem_cons_of_mem n hm))
        (fun m hm => hb m (List.mem_cons_of_mem n hm))]
    simp

theorem processEntries_ok_prefix (env : CliEnv) (sf : String → Suite)
    (bf : String → KwDict → Nat) :
    ∀ (pre rest : List CheckpointBatchEntry),
      (∀ e ∈ pre, e.expectation_suite_names ≠ []) →
      (∀ e ∈ pre, ∀ n ∈ e.expectation_suite_names, env.loadSuite n = some (sf n)) →
      (∀ e ∈ pre, ∀ n ∈ e.expectation_suite_names,
        env.load_batch (sf n) e.batch_kwargs = .ok (bf n e.batch_kwargs)) →
      ∀ acc loads, processEntries env (pre ++ rest) acc loads =
        processEntries env rest
          (acc ++ pre.flatMap (fun e => e.expectation_suite_names.map
            (fun n => bf n e.batch_kwargs)))
          (loads ++ pre.flatMap (fun e => e.expectation_suite_names.map
            (fun n => (n, e.batch_kwargs)))) := by
  intro pre
  induction pre with
  | nil =>
    intro rest _ _ _ acc loads
    simp
  | cons e pre2 ih =>
    intro rest hne hs hb acc loads
    have hne1 : e.expectation_suite_names.isEmpty = false := by
      cases hx : e.expectation_suite_names with
      | nil => exact absurd hx (hne e (List.mem_cons_self e pre2))
      | cons a l => rfl
    simp only [List.cons_append, processEntries, hne1, Bool.false_eq_true, if_false,
      processSuites_all_ok env e.batch_kwargs sf bf e.expectation_suite_names
        (hs e (List.mem_cons_self e pre2)) (hb e (List.mem_cons_self e pre2)),
      List.append_eq]
    rw [ih rest (fun x hx => hne x (List.mem_cons_of_mem e hx))
        (fun x hx => hs x (List.mem_cons_of_mem e hx))
        (fun x hx => hb x (List.mem_cons_of_mem e hx))]
    simp

theorem processEntries_all_ok (env : CliEnv) (sf : String → Suite)
    (bf : String → KwDict → Nat) (entries : List CheckpointBatchEntry)
    (hne : ∀ e ∈ entries, e.expectation_suite_names ≠ [])
    (hs : ∀ e ∈ entries, ∀ n ∈ e.expectation_suite_names, env.loadSuite n = some (sf n))
    (hb : ∀ e ∈ entries, ∀ n ∈ e.expectation_suite_names,
      env.load_batch (sf n) e.batch_kwargs = .ok (bf n e.batch_kwargs))
    (acc : List Nat) (loads : List (String × KwDict)) :
    processEntries env entries acc loads =
      .ok (acc ++ entries.flatMap (fun e => e.expectation_suite_names.map
            (fun n => bf n e.batch_kwargs)),
           loads ++ entries.flatMap (fun e => e.expectation_suite_names.map
            (fun n => (n, e.batch_kwargs)))) := by
  have h := processEntries_ok_prefix env sf bf entries [] hne hs hb acc loads
  rw [List.append_nil] at h
  rw [h]
  simp [processEntries]

theorem checkpoint_run_all_ok (env : CliEnv) (cp : String) (cfg : CheckpointConfig)
    (sf : String → Suite) (bf : String → KwDict → Nat)
    (h1 : env.loadCheckpoint cp = some cfg)
    (hne : ∀ e ∈ cfg.batches, e.expectation_suite_names ≠ [])
    (hs : ∀ e ∈ cfg.batches, ∀ n ∈ e.expectation_suite_names,
      env.loadSuite n = some (sf n))
    (hb : ∀ e ∈ cfg.batches, ∀ n ∈ e.expectation_suite_names,
      env.load_batch (sf n) e.batch_kwargs = .ok (bf n e.batch_kwargs)) :
    checkpoint_run env cp =
      (match env.run_validation_operator cfg.validation_operator_name
          (expectedAssets cfg bf) with
       | .error .dataContextError => .exited 1
       | .error e => .raised e
       | .ok r => if r.success then .exited 0 else .exited 1,
       { loadCalls := expectedLoadCalls cfg,
         operatorCalls := [(cfg.validation_operator_name, expectedAssets cfg bf)] }) := by
  simp only [checkpoint_run, h1,
    processEntries_all_ok env sf bf cfg.batches hne hs hb [] [], List.nil_append,
    expectedAssets, expectedLoadCalls]

/-! ## C5, C6: run collects batches, single operator call, exit codes -/

/-- A concrete checkpoint configuration: two batches listing two and one
suites respectively. -/
def testConfig : CheckpointConfig :=
  { validation_operator_name := "action_list_operator",
    batches :=
      [ { batch_kwargs := [("path", PyVal.str "a.csv")],
          expectation_suite_names := ["s1", "s2"] },
        { batch_kwargs := [("path", PyVal.str "b.csv")],
          expectation_suite_names := ["s3"] } ] }

/-- A concrete CLI environment whose operator succeeds exactly when all
three (entry, suite) pairs were collected. -/
def testCliEnv : CliEnv :=
  { listCheckpoints := ["existing"],
    loadCheckpoint := fun n => if n = "cp" then some testConfig else none,
    loadSuite := fun n => some { suite_name := n },
    load_batch := fun _ _ => .ok 0,
    run_validation_operator := fun _ assets => .ok { success := assets.length == 3 },
    selectDatasource := some "pandas",
    getBatchKwargs := [],
    rootDirectory := "/proj/great_expectations",
    checkpointsDir := "checkpoints",
    uncommittedDir := "uncommitted",
    isFile := fun p => p == "/proj/great_expectations/uncommitted/run_taken.py" }

/-- C5: when `checkpoint run` executes a checkpoint without error, it
loads one batch for every (batch entry, listed suite name) pair, collects
all loaded batches, passes them together in a single call to the
configured validation operator, and reports the overall pass/fail outcome
via the process exit code. -/
theorem checkpoint_run_collects_and_reports (env : CliEnv) (cp : String)
    (cfg : CheckpointConfig) (sf : String → Suite) (bf : String → KwDict → Nat)
    (r : ValidationResult)
    (h1 : env.loadCheckpoint cp = some cfg)
    (hne : ∀ e ∈ cfg.batches, e.expectation_suite_names ≠ [])
    (hs : ∀ e ∈ cfg.batches, ∀ n ∈ e.expectation_suite_names,
      env.loadSuite n = some (sf n))
    (hb : ∀ e ∈ cfg.batches, ∀ n ∈ e.expectation_suite_names,
      env.load_batch (sf n) e.batch_kwargs = .ok (bf n e.batch_kwargs))
    (hop : env.run_validation_operator cfg.validation_operator_name
      (expectedAssets cfg bf) = .ok r) :
    checkpoint_run env cp =
      (if r.success then .exited 0 else .exited 1,
       { loadCalls := expectedLoadCalls cfg,
         operatorCalls := [(cfg.validation_operator_name, expectedAssets cfg bf)] }) := by
  rw [checkpoint_run_all_ok env cp cfg sf bf h1 hne hs hb, hop]

/-- Witness for C5: two entries with suites [s1, s2] and [s3] produce
exactly three load calls and one operator call over the three batches,
and the run exits 0. -/
theorem checkpoint_run_collects_and_reports_witness :
    checkpoint_run testCliEnv "cp" =
      (.exited 0,
       { loadCalls := expectedLoadCalls testConfig,
         operatorCalls :=
           [("action_list_operator", expectedAssets testConfig (fun _ _ => 0))] }) := by
  have h := checkpoint_run_collects_and_reports testCliEnv "cp" testConfig
    (fun n => { suite_name := n }) (fun _ _ => 0) { success := true }
    rfl (by decide) (fun _ _ _ _ => rfl) (fun _ _ _ _ => rfl) rfl
  exact h

/-- The same environment with no checkpoints configured. -/
def testCliEnvNoCheckpoints : CliEnv := { testCliEnv with listCheckpoints := [] }

/-- C6: `checkpoint run` exits 0 when the validation operator reports
success and 1 when it reports failure, and `checkpoint list` exits 0
when no checkpoints exist. -/
theorem checkpoint_exit_codes (env : CliEnv) (cp : String)
    (cfg : CheckpointConfig) (sf : String → Suite) (bf : String → KwDict → Nat)
    (r : ValidationResult)
    (h1 : env.loadCheckpoint cp = some cfg)
    (hne : ∀ e ∈ cfg.batches, e.expectation_suite_names ≠ [])
    (hs : ∀ e ∈ cfg.batches, ∀ n ∈ e.expectation_suite_names,
      env.loadSuite n = some (sf n))
    (hb : ∀ e ∈ cfg.batches, ∀ n ∈ e.expectation_suite_names,
      env.load_batch (sf n) e.batch_kwargs = .ok (bf n e.batch_kwargs))
    (hop : env.run_validation_operator cfg.validation_operator_name
      (expectedAssets cfg bf) = .ok r) :
    ((checkpoint_run env cp).1 =
      if r.success then CliOutcome.exited 0 else CliOutcome.exited 1) ∧
    (∀ env2 : CliEnv, env2.listCheckpoints = [] →
      (checkpoint_list env2).1 = .exited 0) := by
  constructor
  · rw [checkpoint_run_all_ok env cp cfg sf bf h1 hne hs hb, hop]
  · intro env2 h
    simp [checkpoint_list, h]

/-- Witness for C6: the concrete run exits 0 on a successful validation,
and the concrete list with no checkpoints exits 0. -/
theorem checkpoint_exit_codes_witness :
    (checkpoint_run testCliEnv "cp").1 = CliOutcome.exited 0 ∧
    (checkpoint_list testCliEnvNoCheckpoints).1 = CliOutcome.exited 0 := by
  have h := checkpoint_exit_codes testCliEnv "cp" testConfig
    (fun n => { suite_name := n }) (fun _ _ => 0) { success := true }
    rfl (by decide) (fun _ _ _ _ => rfl) (fun _ _ _ _ => rfl) rfl
  exact ⟨h.1, h.2 testCliEnvNoCheckpoints rfl⟩

/-! ## C7, C8, C10: input validation and error handling -/

theorem checkpoint_run_stops_at_empty (env : CliEnv) (cp : String) (cfg : CheckpointConfig)
    (pre : List CheckpointBatchEntry) (eE : CheckpointBatchEntry)
    (post : List CheckpointBatchEntry) (sf : String → Suite) (bf : String → KwDict → Nat)
    (h1 : env.loadCheckpoint cp = some cfg)
    (hsplit : cfg.batches = pre ++ eE :: post)
    (hne : ∀ e ∈ pre, e.expectation_suite_names ≠ [])
    (hs : ∀ e ∈ pre, ∀ n ∈ e.expectation_suite_names, env.loadSuite n = some (sf n))
    (hb : ∀ e ∈ pre, ∀ n ∈ e.expectation_suite_names,
      env.load_batch (sf n) e.batch_kwargs = .ok (bf n e.batch_kwargs))
    (hempty : eE.expectation_suite_names = []) :
    checkpoint_run env cp =
      (.exited 1,
       { loadCalls := pre.flatMap (fun e => e.expectation_suite_names.map
           (fun n => (n, e.batch_kwargs))),
         operatorCalls := [] }) := by
  have hpre := processEntries_ok_prefix env sf bf pre (eE :: post) hne hs hb [] []
  simp only [List.nil_append] at hpre
  simp only [checkpoint_run, h1, hsplit, hpre, processEntries, hempty, List.isEmpty_nil,
    if_true]

theorem processSuites_stops_at_error (env : CliEnv) (bkw : KwDict) (sf : String → Suite)
    (bf : String → KwDict → Nat) :
    ∀ (ns1 : List String) (n : String) (ns2 : List String) (exc : CliExc),
      (∀ m ∈ ns1, env.loadSuite m = some (sf m)) →
      (∀ m ∈ ns1, env.load_batch (sf m) bkw = .ok (bf m bkw)) →
      env.loadSuite n = some (sf n) →
      env.load_batch (sf n) bkw = .error exc →
      ∀ acc loads, processSuites env bkw (ns1 ++ n :: ns2) acc loads =
        .error (if caughtDuringLoad exc then .exited 1 else .raised exc,
                loads ++ ns1.map (fun m => (m, bkw)) ++ [(n, bkw)]) := by
  intro ns1
  induction ns1 with
  | nil =>
    intro n ns2 exc _ _ hsn hbn acc loads
    simp only [List.nil_append, processSuites, hsn, hbn, List.map_nil, List.append_nil]
  | cons m rest ih =>
    intro n ns2 exc hs hb hsn hbn acc loads
    simp only [List.cons_append, processSuites, hs m (List.mem_cons_self m rest),
      hb m (List.mem_cons_self m rest), List.append_eq]
    rw [ih n ns2 exc (fun x hx => hs x (List.mem_cons_of_mem m hx))
        (fun x hx => hb x (List.mem_cons_of_mem m hx)) hsn hbn]
    simp [List.append_assoc]

/-- C7: `checkpoint new` rejects a name already among the context's
checkpoints, exiting 1 before any file is written; and `checkpoint run`
rejects a batch entry listing no suites, exiting 1 with the load calls
being exactly those of the preceding entries — none for the offending
entry — and no operator call. -/
theorem checkpoint_input_validation :
    (∀ (env : CliEnv) (cp s : String),
      env.listCheckpoints.contains cp = true →
      checkpoint_new env cp s = (.exited 1, [])) ∧
    (∀ (env : CliEnv) (cp : String) (cfg : CheckpointConfig)
       (pre : List CheckpointBatchEntry) (eE : CheckpointBatchEntry)
       (post : List CheckpointBatchEntry) (sf : String → Suite) (bf : String → KwDict → Nat),
      env.loadCheckpoint cp = some cfg →
      cfg.batches = pre ++ eE :: post →
      (∀ e ∈ pre, e.expectation_suite_names ≠ []) →
      (∀ e ∈ pre, ∀ n ∈ e.expectation_suite_names, env.loadSuite n = some (sf n)) →
      (∀ e ∈ pre, ∀ n ∈ e.expectation_suite_names,
        env.load_batch (sf n) e.batch_kwargs = .ok (bf n e.batch_kwargs)) →
      eE.expectation_suite_names = [] →
      checkpoint_run env cp =
        (.exited 1,
         { loadCalls := pre.flatMap (fun e => e.expectation_suite_names.map
             (fun n => (n, e.batch_kwargs))),
           operatorCalls := [] })) := by
  constructor
  · intro env cp s h
    unfold checkpoint_new
    rw [if_pos h]
  · intro env cp cfg pre eE post sf bf h1 hsplit hne hs hb hempty
    exact checkpoint_run_stops_at_empty env cp cfg pre eE post sf bf h1 hsplit hne hs hb hempty

/-- A checkpoint whose second batch entry lists no suites. -/
def testConfigEmptySuite : CheckpointConfig :=
  { validation_operator_name := "action_list_operator",
    batches :=
      [ { batch_kwargs := [("path", PyVal.str "a.csv")],
          expectation_suite_names := ["s1"] },
        { batch_kwargs := [("path", PyVal.str "b.csv")],
          expectation_suite_names := [] } ] }

/-- The test environment serving the empty-suite checkpoint. -/
def testCliEnvEmptySuite : CliEnv :=
  { testCliEnv with
    loadCheckpoint := fun n => if n = "cp" then some testConfigEmptySuite else none }

/-- Witness for C7: a duplicate name is rejected with nothing written,
and the empty-suite entry stops the run with only the first entry's
batch loaded. -/
theorem checkpoint_input_validation_witness :
    checkpoint_new testCliEnv "existing" "s1" = (.exited 1, []) ∧
    checkpoint_run testCliEnvEmptySuite "cp" =
      (.exited 1,
       { loadCalls := [("s1", [("path", PyVal.str "a.csv")])], operatorCalls := [] }) := by
  refine ⟨checkpoint_input_validation.1 testCliEnv "existing" "s1" rfl, ?_⟩
  have h := checkpoint_input_validation.2 testCliEnvEmptySuite "cp" testConfigEmptySuite
    [{ batch_kwargs := [("path", PyVal.str "a.csv")], expectation_suite_names := ["s1"] }]
    { batch_kwargs := [("path", PyVal.str "b.csv")], expectation_suite_names := [] } []
    (fun n => { suite_name := n }) (fun _ _ => 0)
    rfl rfl (by decide) (fun _ _ _ _ => rfl) (fun _ _ _ _ => rfl) rfl
  exact h

/-- C8: a load error of one of the caught classes (`FileNotFoundError`,
`SQLAlchemyError`, `IOError`, `DataContextError`) anywhere during batch
loading makes the run exit 1 instead of propagating; and a
`DataContextError` raised by the validation operator makes the run exit 1
instead of propagating. -/
theorem checkpoint_run_error_handling :
    (∀ (env : CliEnv) (cp : String) (cfg : CheckpointConfig)
       (pre : List CheckpointBatchEntry) (ebad : CheckpointBatchEntry)
       (post : List CheckpointBatchEntry) (ns1 : List String) (n : String)
       (ns2 : List String) (sf : String → Suite) (bf : String → KwDict → Nat)
       (exc : CliExc),
      env.loadCheckpoint cp = some cfg →
      cfg.batches = pre ++ ebad :: post →
      (∀ e ∈ pre, e.expectation_suite_names ≠ []) →
      (∀ e ∈ pre, ∀ m ∈ e.expectation_suite_names, env.loadSuite m = some (sf m)) →
      (∀ e ∈ pre, ∀ m ∈ e.expectation_suite_names,
        env.load_batch (sf m) e.batch_kwargs = .ok (bf m e.batch_kwargs)) →
      ebad.expectation_suite_names = ns1 ++ n :: ns2 →
      (∀ m ∈ ns1, env.loadSuite m = some (sf m)) →
      (∀ m ∈ ns1, env.load_batch (sf m) ebad.batch_kwargs = .ok (bf m ebad.batch_kwargs)) →
      env.loadSuite n = some (sf n) →
      env.load_batch (sf n) ebad.batch_kwargs = .error exc →
      caughtDuringLoad exc = true →
      (checkpoint_run env cp).1 = .exited 1) ∧
    (∀ (env : CliEnv) (cp : String) (cfg : CheckpointConfig) (sf : String → Suite)
       (bf : String → KwDict → Nat),
      env.loadCheckpoint cp = some cfg →
      (∀ e ∈ cfg.batches, e.expectation_suite_names ≠ []) →
      (∀ e ∈ cfg.batches, ∀ m ∈ e.expectation_suite_names,
        env.loadSuite m = some (sf m)) →
      (∀ e ∈ cfg.batches, ∀ m ∈ e.expectation_suite_names,
        env.load_batch (sf m) e.batch_kwargs = .ok (bf m e.batch_kwargs)) →
      env.run_validation_operator cfg.validation_operator_name (expectedAssets cfg bf) =
        .error .dataContextError →
      (checkpoint_run env cp).1 = .exited 1) := by
  constructor
  · intro env cp cfg pre ebad post ns1 n ns2 sf bf exc h1 hsplit hnePre hsPre hbPre
      hnames hs1 hb1 hsn hbn hcaught
    have hpre := processEntries_ok_prefix env sf bf pre (ebad :: post) hnePre hsPre hbPre [] []
    simp only [List.nil_append] at hpre
    have hne2 : (ns1 ++ n :: ns2).isEmpty = false := by
      cases ns1 <;> rfl
    have hsuites := processSuites_stops_at_error env ebad.batch_kwargs sf bf ns1 n ns2 exc
      hs1 hb1 hsn hbn
      (pre.flatMap (fun e => e.expectation_suite_names.map (fun m => bf m e.batch_kwargs)))
      (pre.flatMap (fun e => e.expectation_suite_names.map (fun m => (m, e.batch_kwargs))))
    simp only [checkpoint_run, h1, hsplit, hpre, processEntries, hnames, hne2,
      Bool.false_eq_true, if_false, hsuites, hcaught, if_true]
  · intro env cp cfg sf bf h1 hne hs hb hop
    rw [checkpoint_run_all_ok env cp cfg sf bf h1 hne hs hb]
    simp only [hop]

/-- A checkpoint whose second batch entry has an unloadable descriptor. -/
def testConfigBadBatch : CheckpointConfig :=
  { validation_operator_name := "action_list_operator",
    batches :=
      [ { batch_kwargs := [("path", PyVal.str "a.csv")],
          expectation_suite_names := ["s1"] },
        { batch_kwargs := [("bad", PyVal.boolVal true)],
          expectation_suite_names := ["s2", "s3"] } ] }

/-- A test environment whose loader raises `FileNotFoundError` on the bad
descriptor. -/
def testCliEnvLoadFail : CliEnv :=
  { testCliEnv with
    loadCheckpoint := fun n => if n = "cp" then some testConfigBadBatch else none,
    load_batch := fun _ k => if hasKey k "bad" then .error .fileNotFound else .ok 0 }

/-- A test environment whose validation operator raises
`DataContextError`. -/
def testCliEnvOpFail : CliEnv :=
  { testCliEnv with
    run_validation_operator := fun _ _ => .error .dataContextError }

/-- Witness for C8: a `FileNotFoundError` while loading the second entry
exits 1, and an operator `DataContextError` exits 1. -/
theorem checkpoint_run_error_handling_witness :
    (checkpoint_run testCliEnvLoadFail "cp").1 = CliOutcome.exited 1 ∧
    (checkpoint_run testCliEnvOpFail "cp").1 = CliOutcome.exited 1 := by
  constructor
  · exact checkpoint_run_error_handling.1 testCliEnvLoadFail "cp" testConfigBadBatch
      [{ batch_kwargs := [("path", PyVal.str "a.csv")], expectation_suite_names := ["s1"] }]
      { batch_kwargs := [("bad", PyVal.boolVal true)], expectation_suite_names := ["s2", "s3"] }
      [] [] "s2" ["s3"] (fun n => { suite_name := n }) (fun _ _ => 0) CliExc.fileNotFound
      rfl rfl (by decide) (fun _ _ _ _ => rfl)
      (by
        intro e he m hm
        simp only [List.mem_singleton] at he
        subst he
        rfl)
      rfl
      (fun m hm => absurd hm (List.not_mem_nil m)) (fun m hm => absurd hm (List.not_mem_nil m))
      rfl rfl rfl
  · exact checkpoint_run_error_handling.2 testCliEnvOpFail "cp" testConfig
      (fun n => { suite_name := n }) (fun _ _ => 0)
      rfl (by decide) (fun _ _ _ _ => rfl) (fun _ _ _ _ => rfl) rfl

/-- C10: `checkpoint script` never overwrites an existing
`run_<checkpoint>.py`: when the target file exists the command exits 1
writing nothing, and the script file is written exactly when no such
file exists. -/
theorem checkpoint_script_no_overwrite (env : CliEnv) (cp : String)
    (cfg : CheckpointConfig) (h : env.loadCheckpoint cp = some cfg) :
    (env.isFile (pathJoin (pathJoin env.rootDirectory env.uncommittedDir)
        ("run_" ++ cp ++ ".py")) = true →
      checkpoint_script env cp = (.exited 1, [])) ∧
    (env.isFile (pathJoin (pathJoin env.rootDirectory env.uncommittedDir)
        ("run_" ++ cp ++ ".py")) = false →
      checkpoint_script env cp =
        (.exited 0, [pathJoin (pathJoin env.rootDirectory env.uncommittedDir)
          ("run_" ++ cp ++ ".py")])) := by
  constructor <;> intro hf <;> simp [checkpoint_script, h, hf]

/-- A test environment that can load every checkpoint name and already
has `run_taken.py` on disk. -/
def testCliEnvScript : CliEnv :=
  { testCliEnv with loadCheckpoint := fun _ => some testConfig }

/-- Witness for C10: the existing `run_taken.py` is not overwritten and
the fresh script is written. -/
theorem checkpoint_script_no_overwrite_witness :
    checkpoint_script testCliEnvScript "taken" = (.exited 1, []) ∧
    checkpoint_script testCliEnvScript "fresh" =
      (.exited 0, ["/proj/great_expectations/uncommitted/run_fresh.py"]) := by
  refine ⟨(checkpoint_script_no_overwrite testCliEnvScript "taken" testConfig rfl).1 rfl, ?_⟩
  have h := (checkpoint_script_no_overwrite testCliEnvScript "fresh" testConfig rfl).2 rfl
  exact h

end GE
